import Mathlib

/-!
Shallow embedding of the ragas-example repository, covering the code that the
claims C1..C10 are about:
  - src/ragas/llms/cost.py   (TokenUsage, parse_llm_result, CostCallbackHandler)
  - src/ragas/llms/base.py   (BaseRagasLLM.get_temperature, LangchainLLMWrapper
                              generate_text retry decorator and n-completion shim)
  - src/ragas/metrics/_faithfulness.py  (verdict scoring tail of Faithfulness.ascore)
  - src/ragas/metrics/_context_recall.py (ContextRecall._compute_score)
  - src/ragas/langchain/evalchain.py    (RagasEvaluatorChain.evaluate)
Python floats that only ever hold small decimal constants or exact quotients of
small integers are modelled as rationals; the float NaN sentinel is modelled as
the value none of an Option type; a raised Python exception is modelled as the
error case of Except or as none of an Option result.
-/

/-! ## TokenUsage (src/ragas/llms/cost.py) -/

/-- Embeds the pydantic model TokenUsage: two token counters and an optional
model identity, default none. -/
structure TokenUsage where
  input_tokens : Nat
  output_tokens : Nat
  model : Option String := none
deriving DecidableEq

/-- Embeds TokenUsage.__add__.  The Python method returns a fresh TokenUsage
whose constructor is called WITHOUT a model argument, so the sum always carries
model = none.  A raised ValueError (mismatched models) is modelled as none. -/
def TokenUsage.add (x y : TokenUsage) : Option TokenUsage :=
  if x.model = y.model ∨ (x.model = none ∧ y.model = none) then
    some { input_tokens := x.input_tokens + y.input_tokens
           , output_tokens := x.output_tokens + y.output_tokens
           , model := none }
  else
    none

/-- Embeds TokenUsage.is_same_model. -/
def TokenUsage.is_same_model (x y : TokenUsage) : Bool :=
  if x.model = none ∧ y.model = none then true
  else if x.model = y.model then true
  else false

/-! ## Theorems for claims C1 and C10 -/

/-- C1: TokenUsage addition is commutative for every pair sharing the same
model identity, and associative for every same-model triple in the sense of
partial operations (the two groupings produce identical Option results; when
the shared model is not none both groupings fail, because a pair-sum drops the
model, see C10).  Adding two values with differing non-null models is an error
(none), and adding two values whose models are both unset succeeds. -/
theorem C1_tokenusage_add_algebra (x y z : TokenUsage)
    (hxy : x.model = y.model) (hyz : y.model = z.model) :
    (∃ s, x.add y = some s ∧ y.add x = some s) ∧
    ((x.add y).bind (fun a => a.add z) = (y.add z).bind (fun b => x.add b)) ∧
    (∀ u v : TokenUsage, u.model ≠ v.model → u.model ≠ none → v.model ≠ none →
      u.add v = none) ∧
    (∀ i o i' o' : Nat,
      (TokenUsage.mk i o none).add (TokenUsage.mk i' o' none)
        = some (TokenUsage.mk (i + i') (o + o') none)) := by
  refine ⟨⟨⟨x.input_tokens + y.input_tokens, x.output_tokens + y.output_tokens, none⟩,
      ?_, ?_⟩, ?_, ?_, ?_⟩
  · simp [TokenUsage.add, hxy]
  · simp [TokenUsage.add, hxy.symm, Nat.add_comm]
  · rcases hm : x.model with _ | m
    · have hy : y.model = none := hxy ▸ hm
      have hz : z.model = none := hyz ▸ hy
      simp [TokenUsage.add, hm, hy, hz, Nat.add_assoc]
    · have hy : y.model = some m := hxy ▸ hm
      have hz : z.model = some m := hyz ▸ hy
      simp [TokenUsage.add, hm, hy, hz]
  · intro u v huv hu hv
    simp only [TokenUsage.add, ite_eq_right_iff]
    intro hcond
    rcases hcond with h | ⟨h1, _⟩
    · exact absurd h huv
    · exact absurd h1 hu
  · intro i o i' o'
    simp [TokenUsage.add]

/-- Witness for C1 at a concrete same-model triple. -/
theorem C1_tokenusage_add_algebra_witness :
    (∃ s, (TokenUsage.mk 1 2 (some "gpt4")).add (TokenUsage.mk 3 4 (some "gpt4"))
        = some s ∧
      (TokenUsage.mk 3 4 (some "gpt4")).add (TokenUsage.mk 1 2 (some "gpt4"))
        = some s) ∧
    (((TokenUsage.mk 1 2 (some "gpt4")).add (TokenUsage.mk 3 4 (some "gpt4"))).bind
        (fun a => a.add (TokenUsage.mk 5 6 (some "gpt4")))
      = ((TokenUsage.mk 3 4 (some "gpt4")).add (TokenUsage.mk 5 6 (some "gpt4"))).bind
        (fun b => (TokenUsage.mk 1 2 (some "gpt4")).add b)) ∧
    (∀ u v : TokenUsage, u.model ≠ v.model → u.model ≠ none → v.model ≠ none →
      u.add v = none) ∧
    (∀ i o i' o' : Nat,
      (TokenUsage.mk i o none).add (TokenUsage.mk i' o' none)
        = some (TokenUsage.mk (i + i') (o + o') none)) :=
  C1_tokenusage_add_algebra
    (TokenUsage.mk 1 2 (some "gpt4")) (TokenUsage.mk 3 4 (some "gpt4"))
    (TokenUsage.mk 5 6 (some "gpt4")) rfl rfl

/-- C10: adding two TokenUsage values that share the same non-None model
succeeds, but the sum carries model = none, so adding a further value with
that same non-None model to the sum raises (none). -/
theorem C10_tokenusage_add_drops_model (u v w : TokenUsage) (m : String)
    (hu : u.model = some m) (hv : v.model = some m) (hw : w.model = some m) :
    ∃ r, u.add v = some r ∧ r.model = none ∧ r.add w = none := by
  refine ⟨⟨u.input_tokens + v.input_tokens, u.output_tokens + v.output_tokens, none⟩,
    ?_, rfl, ?_⟩
  · simp [TokenUsage.add, hu, hv]
  · simp [TokenUsage.add, hw]

/-- Witness for C10 at a concrete same-model pair plus a third value. -/
theorem C10_tokenusage_add_drops_model_witness :
    ∃ r, (TokenUsage.mk 1 2 (some "m")).add (TokenUsage.mk 3 4 (some "m")) = some r ∧
      r.model = none ∧ r.add (TokenUsage.mk 5 6 (some "m")) = none :=
  C10_tokenusage_add_drops_model
    (TokenUsage.mk 1 2 (some "m")) (TokenUsage.mk 3 4 (some "m"))
    (TokenUsage.mk 5 6 (some "m")) "m" rfl rfl rfl

/-! ## parse_llm_result and CostCallbackHandler (src/ragas/llms/cost.py) -/

/-- Embeds the three states of LLMResult.llm_output that parse_llm_result
distinguishes: Python None, the empty dict, and a non-empty dict from which
get_from_dict reads token_usage.completion_tokens and token_usage.input_tokens
with default 0 (the usage constructor holds the two values after defaulting). -/
inductive LLMOutput where
  | noOutput : LLMOutput
  | emptyDict : LLMOutput
  | usage (completion_tokens input_tokens : Nat) : LLMOutput
deriving DecidableEq

/-- Embeds one generation inside LLMResult.generations: whether it is a
ChatGeneration, and its message response_metadata, where none models the empty
metadata dict and some (i, o) holds the values get_from_dict reads from
usage.input_tokens and usage.output_tokens with default 0. -/
structure CostGeneration where
  isChat : Bool
  response_metadata : Option (Nat × Nat)
deriving DecidableEq

/-- Embeds the fields of a langchain LLMResult that cost.py reads. -/
structure CostLLMResult where
  llm_output : LLMOutput
  generations : List (List CostGeneration)
deriving DecidableEq

/-- Embeds parse_llm_result.  Branch order follows the source: a non-empty
llm_output dict is used directly; an empty dict triggers the per-completion
scan over generations, summing with TokenUsage.__add__ from TokenUsage(0,0);
otherwise (llm_output is None) the result is zero usage.  The sum is threaded
through the partial TokenUsage.add, though every summand has model none so it
never fails. -/
def parse_llm_result (r : CostLLMResult) : Option TokenUsage :=
  match r.llm_output with
  | LLMOutput.usage c i => some (TokenUsage.mk i c none)
  | LLMOutput.emptyDict =>
    let token_usages :=
      (r.generations.foldl (fun acc gs => acc ++ gs) []).filterMap fun g =>
        if g.isChat then
          g.response_metadata.map fun p => TokenUsage.mk p.1 p.2 none
        else none
    token_usages.foldl (fun acc u => acc.bind fun a => a.add u)
      (some (TokenUsage.mk 0 0 none))
  | LLMOutput.noOutput => some (TokenUsage.mk 0 0 none)

/-- Embeds CostCallbackHandler.on_llm_end acting on the usage_data state.
The body of the Python method is a bare pass statement, so the handler state
is returned unchanged and the response is ignored. -/
def CostCallbackHandler.on_llm_end (usage_data : List TokenUsage)
    (_response : CostLLMResult) : List TokenUsage :=
  usage_data

/-- C3 names this bug: on a response carrying a provider-level usage block that
parse_llm_result extracts as 5 input and 10 output tokens, on_llm_end leaves
the running usage_data total empty instead of appending the parsed usage. -/
theorem C3_on_llm_end_never_appends :
    parse_llm_result (CostLLMResult.mk (LLMOutput.usage 10 5) [])
      = some (TokenUsage.mk 5 10 none) ∧
    CostCallbackHandler.on_llm_end [] (CostLLMResult.mk (LLMOutput.usage 10 5) []) = [] ∧
    CostCallbackHandler.on_llm_end [] (CostLLMResult.mk (LLMOutput.usage 10 5) [])
      ≠ [TokenUsage.mk 5 10 none] := by
  refine ⟨rfl, rfl, ?_⟩
  decide

/-! ## Temperature policy (src/ragas/llms/base.py) -/

/-- Embeds BaseRagasLLM.get_temperature: 0.3 if n > 1 else 1e-8.  The two
Python float constants are exact decimal literals, modelled as rationals. -/
def BaseRagasLLM.get_temperature (n : Nat) : ℚ :=
  if 1 < n then 3 / 10 else 1 / 10 ^ 8

/-- Embeds the effective temperature of LangchainLLMWrapper.generate_text and
agenerate_text: both bodies begin with the reassignment
temperature = self.get_temperature(n=n), discarding the caller-supplied
temperature argument before any provider call. -/
def LangchainLLMWrapper.effective_temperature (_requested : ℚ) (n : Nat) : ℚ :=
  BaseRagasLLM.get_temperature n

/-- C8: for any caller-requested temperature, a call with n = 1 runs at
effective temperature 1e-8, a call with n > 1 runs at 0.3, and the effective
temperature depends only on n, overriding the requested value. -/
theorem C8_temperature_policy (t : ℚ) (n : Nat) :
    (n = 1 → LangchainLLMWrapper.effective_temperature t n = 1 / 10 ^ 8) ∧
    (1 < n → LangchainLLMWrapper.effective_temperature t n = 3 / 10) ∧
    (∀ s : ℚ, LangchainLLMWrapper.effective_temperature t n
        = LangchainLLMWrapper.effective_temperature s n) := by
  refine ⟨?_, ?_, fun s => rfl⟩
  · rintro rfl
    simp [LangchainLLMWrapper.effective_temperature, BaseRagasLLM.get_temperature]
  · intro h
    simp [LangchainLLMWrapper.effective_temperature, BaseRagasLLM.get_temperature, h]

/-- Witness for C8 at requested temperature 7/10 with n = 1 and at n = 2. -/
theorem C8_temperature_policy_witness :
    LangchainLLMWrapper.effective_temperature (7 / 10) 1 = 1 / 10 ^ 8 ∧
    LangchainLLMWrapper.effective_temperature (7 / 10) 2 = 3 / 10 :=
  ⟨(C8_temperature_policy (7 / 10) 1).1 rfl,
   (C8_temperature_policy (7 / 10) 2).2.1 (by decide)⟩

/-! ## Retry decorator on generate_text (src/ragas/llms/base.py)

Both LangchainLLMWrapper.generate_text and agenerate_text carry the decorator
retry(wait=wait_random_exponential(min=1, max=60), stop=stop_after_attempt(6)).
The retry combinator itself lives in the external tenacity library; the
definitions below model its semantics as configured here: attempts are
numbered from 1, stop_after_attempt(6) stops once attempt number 6 has run,
each attempt that fails waits a uniformly random fraction of an exponentially
growing bound clamped between min and max, and exhaustion re-raises carrying
the error of the final attempt. -/

/-- The three parameters the decorator passes: wait_random_exponential min,
wait_random_exponential max, and stop_after_attempt count. -/
def generate_text_retry_wait_min : Nat := 1

/-- The wait_random_exponential max argument of the decorator. -/
def generate_text_retry_wait_max : Nat := 60

/-- The stop_after_attempt argument of the decorator. -/
def generate_text_retry_stop_attempts : Nat := 6

/-- The upper bound of the randomized wait after a given failed attempt:
multiplier 1 times 2 to the attempt number, clamped into [min, max].  The
drawn wait is a uniform random fraction of this bound. -/
def wait_random_exponential_high (minWait maxWait attempt : Nat) : Nat :=
  max minWait (min (2 ^ attempt) maxWait)

/-- Runs up to fuel attempts of call, the first one numbered k, returning the
final outcome together with how many attempts were actually made.  On success
no further attempt runs; on failure with fuel left the next attempt runs;
exhaustion returns the error of the final attempt. -/
def retryRun (call : Nat → Except ε α) : Nat → Nat → Except ε α × Nat
  | 0, k => (call k, 1)
  | 1, k => (call k, 1)
  | fuel + 2, k =>
    match call k with
    | Except.ok a => (Except.ok a, 1)
    | Except.error _ =>
      let p := retryRun call (fuel + 1) (k + 1)
      (p.1, p.2 + 1)

/-- The generate_text call as decorated: retry the underlying provider call
with the configured attempt cap, starting at attempt 1. -/
def generate_text_with_retry (call : Nat → Except ε α) : Except ε α × Nat :=
  retryRun call generate_text_retry_stop_attempts 1

/-- Helper: retryRun never makes more attempts than its fuel (and at least
one even with zero fuel, matching the first attempt always running). -/
theorem retryRun_attempts_le (call : Nat → Except ε α) :
    ∀ fuel k, (retryRun call fuel k).2 ≤ max 1 fuel := by
  intro fuel
  induction fuel using Nat.strong_induction_on with
  | _ fuel ih =>
    intro k
    match fuel with
    | 0 => simp [retryRun]
    | 1 => simp [retryRun]
    | f + 2 =>
      simp only [retryRun]
      cases call k with
      | ok a => simp
      | error e =>
        have h := ih (f + 1) (by omega) (k + 1)
        simp only [max_eq_right (by omega : 1 ≤ f + 1)] at h
        simp only []
        omega

/-- Helper: when every attempt fails, retryRun with positive fuel makes
exactly fuel attempts and returns the error of the final one. -/
theorem retryRun_all_fail (errs : Nat → ε) (call : Nat → Except ε α)
    (hcall : ∀ k, call k = Except.error (errs k)) :
    ∀ fuel k, 1 ≤ fuel →
      retryRun call fuel k = (Except.error (errs (k + fuel - 1)), fuel) := by
  intro fuel
  induction fuel using Nat.strong_induction_on with
  | _ fuel ih =>
    intro k hfuel
    match fuel with
    | 1 => simp [retryRun, hcall k]
    | f + 2 =>
      have hrec := ih (f + 1) (by omega) (k + 1) (by omega)
      simp only [retryRun, hcall k, hrec]
      have : k + 1 + (f + 1) - 1 = k + (f + 2) - 1 := by omega
      rw [this]

/-- C4: with the decorator configuration of generate_text, a call against an
always-failing provider makes exactly the capped 6 attempts (so at most 6),
and the outcome surfaced to the caller is the error of the final attempt, not
a further retry; moreover every randomized backoff wait is bounded by an
exponential bound clamped between the configured minimum 1 and maximum 60. -/
theorem C4_retry_policy (errs : Nat → ε) (call : Nat → Except ε α)
    (hcall : ∀ k, call k = Except.error (errs k)) :
    generate_text_with_retry call = (Except.error (errs 6), 6) ∧
    (∀ anyCall : Nat → Except ε α,
      (generate_text_with_retry anyCall).2 ≤ generate_text_retry_stop_attempts) ∧
    generate_text_retry_stop_attempts = 6 ∧
    (∀ attempt, generate_text_retry_wait_min
          ≤ wait_random_exponential_high generate_text_retry_wait_min
              generate_text_retry_wait_max attempt ∧
        wait_random_exponential_high generate_text_retry_wait_min
              generate_text_retry_wait_max attempt
          ≤ generate_text_retry_wait_max) := by
  refine ⟨?_, ?_, rfl, ?_⟩
  · have h := retryRun_all_fail errs call hcall 6 1 (by omega)
    simpa [generate_text_with_retry, generate_text_retry_stop_attempts] using h
  · intro anyCall
    have h := retryRun_attempts_le anyCall 6 1
    simpa [generate_text_with_retry, generate_text_retry_stop_attempts] using h
  · intro attempt
    constructor
    · simp [wait_random_exponential_high, generate_text_retry_wait_min]
    · simp only [wait_random_exponential_high, generate_text_retry_wait_min,
        generate_text_retry_wait_max]
      omega

/-- Witness for C4: a provider that always fails with the attempt number as
its error; the surfaced error is that of attempt 6 and 6 attempts ran. -/
theorem C4_retry_policy_witness :
    generate_text_with_retry (fun k => (Except.error k : Except Nat Unit))
      = (Except.error 6, 6) :=
  (C4_retry_policy (fun k => k) (fun k => Except.error k) (fun _ => rfl)).1

/-! ## n-completion compatibility shim (src/ragas/llms/base.py)

When is_multiple_completion_supported is false, generate_text calls the
provider with prompts = [prompt] * n, then re-packs:
    generations = [[g[0] for g in result.generations]]
    result.generations = generations
The runs field of the result is untouched.  Indexing g[0] raises on an empty
inner list, modelled as none. -/

/-- Embeds the fields of the langchain LLMResult that the shim touches: the
nested generations (inner values modelled by their text) and the per-run
bookkeeping list (one opaque entry per provider round-trip). -/
structure GenLLMResult where
  generations : List (List String)
  runs : List Nat
deriving DecidableEq

/-- Embeds the prompts argument [prompt] * n of the single-completion path. -/
def promptsFor (prompt : String) (n : Nat) : List String :=
  List.replicate n prompt

/-- Embeds the comprehension [g[0] for g in gss]: the first element of every
inner list, failing (none) if some inner list is empty. -/
def firstOfEach : List (List String) → Option (List String)
  | [] => some []
  | g :: gss =>
    match g with
    | [] => none
    | x :: _ => (firstOfEach gss).map fun rest => x :: rest

/-- Embeds the re-pack step of generate_text for providers without native
multi-sample support: generations becomes the single inner list of first
completions, everything else (in particular runs) is kept. -/
def repackResult (result : GenLLMResult) : Option GenLLMResult :=
  (firstOfEach result.generations).map fun gs =>
    { result with generations := [gs] }

/-- Helper: on a list of nonempty inner lists, firstOfEach succeeds and
preserves the length. -/
theorem firstOfEach_length (gss : List (List String))
    (h : ∀ gs ∈ gss, gs ≠ []) :
    ∃ hs, firstOfEach gss = some hs ∧ hs.length = gss.length := by
  induction gss with
  | nil => exact ⟨[], rfl, rfl⟩
  | cons g gss ih =>
    obtain ⟨hs, hhs, hlen⟩ := ih fun gs hgs => h gs (List.mem_cons_of_mem g hgs)
    match g, h g (List.mem_cons_self g gss) with
    | x :: _, _ =>
      exact ⟨x :: hs, by simp [firstOfEach, hhs], by simp [hlen]⟩

/-- C5: for every n ≥ 1, the single-completion path sends n copies of the
prompt, and on a provider result with one nonempty completion list per sent
prompt the re-pack produces a result whose outer dimension is exactly 1,
whose inner dimension is exactly n, and whose runs bookkeeping is exactly
that of the provider result. -/
theorem C5_repack_shape (n : Nat) (_hn : 1 ≤ n) (prompt : String)
    (result : GenLLMResult)
    (hlen : result.generations.length = (promptsFor prompt n).length)
    (hne : ∀ gs ∈ result.generations, gs ≠ []) :
    (promptsFor prompt n).length = n ∧
    ∃ r' inner, repackResult result = some r' ∧
      r'.generations = [inner] ∧
      r'.generations.length = 1 ∧
      inner.length = n ∧
      r'.runs = result.runs := by
  have hrep : (promptsFor prompt n).length = n := by
    simp [promptsFor]
  obtain ⟨hs, hhs, hlenhs⟩ := firstOfEach_length result.generations hne
  refine ⟨hrep, { result with generations := [hs] }, hs, ?_, rfl, rfl, ?_, rfl⟩
  · simp [repackResult, hhs]
  · rw [hlenhs, hlen, hrep]

/-- Witness for C5 at n = 3 with a concrete provider result of three inner
lists and two bookkeeping entries. -/
theorem C5_repack_shape_witness :
    (promptsFor "p" 3).length = 3 ∧
    ∃ r' inner,
      repackResult (GenLLMResult.mk [["a", "x"], ["b"], ["c"]] [7, 8]) = some r' ∧
      r'.generations = [inner] ∧
      r'.generations.length = 1 ∧
      inner.length = 3 ∧
      r'.runs = (GenLLMResult.mk [["a", "x"], ["b"], ["c"]] [7, 8]).runs :=
  C5_repack_shape 3 (by decide) "p"
    (GenLLMResult.mk [["a", "x"], ["b"], ["c"]] [7, 8]) (by decide) (by decide)

/-! ## Faithfulness verdict scoring (src/ragas/metrics/_faithfulness.py)

The scoring tail of Faithfulness.ascore:
    verdict_score_map = the map yes to 1, no to 0, null to nan
    faithful_statements = sum(verdict_score_map.get(d.get("verdict", "").lower(), nan))
    score = faithful_statements / num_statements if num_statements else nan
A float nan is modelled as none; adding nan to anything yields nan, and
nan divided by a count is nan, so a single unrecognized verdict makes the
whole sum nan. -/

/-- Embeds the Python str.lower call as a character-wise lowercase map, which
agrees with Python lowercasing on the ASCII verdict strings involved.  It is
written as a structural map over the character list (rather than through the
iterative String.mapAux of the core library, which is extensionally the same
function) so that concrete strings evaluate. -/
def strLower (s : String) : String := String.mk (s.data.map Char.toLower)

/-- Embeds the lookup verdict_score_map.get(verdict.lower(), nan): yes maps to
1, no maps to 0, the explicit null entry and every other string map to nan
(none). -/
def verdictScore (verdict : String) : Option ℚ :=
  if strLower verdict = "yes" then some 1
  else if strLower verdict = "no" then some 0
  else none

/-- Float addition in the presence of the nan sentinel: nan absorbs. -/
def nanAdd (a b : Option ℚ) : Option ℚ :=
  match a, b with
  | some x, some y => some (x + y)
  | _, _ => none

/-- Embeds lines 171-184 of Faithfulness.ascore, taking the verdict strings of
the parsed output list (each item contributes d.get("verdict", ""), so a
missing key appears here as the empty string; a non-list parse result appears
as the empty list). -/
def Faithfulness_score (verdicts : List String) : Option ℚ :=
  let faithful_statements := (verdicts.map verdictScore).foldl nanAdd (some 0)
  let num_statements := verdicts.length
  if 0 < num_statements then
    faithful_statements.map fun s => s / (num_statements : ℚ)
  else none

/-- The scoring rule exactly as claim C2 words it, for comparison with the
code: an unrecognized verdict contributes 0 to the numerator sum without
aborting, and the score is defined whenever at least one verdict came back. -/
def Faithfulness_score_claimed (verdicts : List String) : Option ℚ :=
  if 0 < verdicts.length then
    some ((verdicts.map fun v => (verdictScore v).getD 0).sum / (verdicts.length : ℚ))
  else none

/-- Helper: nan absorbs through the whole fold. -/
theorem foldl_nanAdd_none (l : List (Option ℚ)) :
    l.foldl nanAdd none = none := by
  induction l with
  | nil => rfl
  | cons a l ih => simpa [nanAdd] using ih

/-- Helper: if every summand is a number, the fold is ordinary addition. -/
theorem foldl_nanAdd_all_some (l : List (Option ℚ)) :
    (∀ x ∈ l, x.isSome) → ∀ init : ℚ, l.foldl nanAdd (some init)
      = some (init + (l.map fun x => x.getD 0).sum) := by
  induction l with
  | nil => intro _ init; simp
  | cons a l ih =>
    intro h init
    obtain ⟨q, ha⟩ := Option.isSome_iff_exists.1 (h a (List.mem_cons_self a l))
    have hrec := ih (fun x hx => h x (List.mem_cons_of_mem a hx)) (init + q)
    simp [List.foldl_cons, ha, nanAdd, hrec, add_assoc]

/-- Helper: if some summand is nan, the fold is nan. -/
theorem foldl_nanAdd_has_none (l : List (Option ℚ)) :
    none ∈ l → ∀ acc : Option ℚ, l.foldl nanAdd acc = none := by
  induction l with
  | nil => intro h; cases h
  | cons a l ih =>
    intro h acc
    rw [List.foldl_cons]
    rcases List.mem_cons.1 h with heq | hmem
    · rw [← heq]
      cases acc <;> exact foldl_nanAdd_none l
    · exact ih hmem _

/-- Helper: the code score when every verdict is recognized. -/
theorem Faithfulness_score_all_recognized (verdicts : List String)
    (hne : verdicts ≠ []) (h : ∀ v ∈ verdicts, (verdictScore v).isSome) :
    Faithfulness_score verdicts
      = some ((verdicts.map fun v => (verdictScore v).getD 0).sum
          / (verdicts.length : ℚ)) := by
  have hall : ∀ x ∈ verdicts.map verdictScore, x.isSome := by
    intro x hx
    obtain ⟨v, hv, rfl⟩ := List.mem_map.1 hx
    exact h v hv
  have hfold := foldl_nanAdd_all_some (verdicts.map verdictScore) hall 0
  have hlen : 0 < verdicts.length := List.length_pos.2 hne
  simp only [Faithfulness_score, hfold, if_pos hlen, Option.map_some, zero_add,
    List.map_map]
  rfl

/-- Helper: an unrecognized verdict anywhere makes the code score nan. -/
theorem Faithfulness_score_with_unrecognized (verdicts : List String)
    (h : ∃ v ∈ verdicts, verdictScore v = none) :
    Faithfulness_score verdicts = none := by
  obtain ⟨v, hv, hnone⟩ := h
  have hmem : (none : Option ℚ) ∈ verdicts.map verdictScore :=
    hnone ▸ List.mem_map_of_mem verdictScore hv
  have hfold := foldl_nanAdd_has_none (verdicts.map verdictScore) hmem (some 0)
  simp only [Faithfulness_score, hfold]
  split <;> rfl

/-- Counterexample to C2 as stated: on the verdict list ["yes", "maybe"] the
claimed rule (unrecognized contributes 0) yields 1/2, but the code propagates
nan through the sum and the score degrades to undefined. -/
theorem C2_counterexample_nan_poisons_sum :
    Faithfulness_score ["yes", "maybe"] = none ∧
    Faithfulness_score_claimed ["yes", "maybe"] = some (1 / 2) ∧
    Faithfulness_score ["yes", "maybe"]
      ≠ Faithfulness_score_claimed ["yes", "maybe"] := by
  have h1 : verdictScore "yes" = some 1 := by decide
  have h2 : verdictScore "maybe" = none := by decide
  have hcode : Faithfulness_score ["yes", "maybe"] = none := rfl
  have hclaim : Faithfulness_score_claimed ["yes", "maybe"] = some (1 / 2) := by
    simp only [Faithfulness_score_claimed, List.map_cons, List.map_nil, h1, h2,
      List.length_cons, List.length_nil, List.sum_cons, List.sum_nil,
      Option.getD_some, Option.getD_none]
    norm_num
  refine ⟨hcode, hclaim, ?_⟩
  rw [hcode, hclaim]
  simp

/-- C2 amended: verdict text is mapped case-insensitively to yes giving 1, no
giving 0, anything unrecognized giving nan; when every returned verdict is
recognized the score is the sum of mapped values over the verdict count; but
an unrecognized verdict poisons the sum, so the metric degrades to undefined
whenever ANY verdict is unrecognized, and likewise when no verdicts (or a
non-list response) came back. -/
theorem C2_verdict_scoring_amended (verdicts : List String) :
    (verdicts ≠ [] → (∀ v ∈ verdicts, (verdictScore v).isSome) →
      Faithfulness_score verdicts
        = some ((verdicts.map fun v => (verdictScore v).getD 0).sum
            / (verdicts.length : ℚ))) ∧
    ((∃ v ∈ verdicts, verdictScore v = none) → Faithfulness_score verdicts = none) ∧
    (verdicts = [] → Faithfulness_score verdicts = none) := by
  refine ⟨fun hne h => Faithfulness_score_all_recognized verdicts hne h,
    fun h => Faithfulness_score_with_unrecognized verdicts h, ?_⟩
  rintro rfl
  rfl

/-- Witness for the amended C2 on a recognized, case-mixed verdict list. -/
theorem C2_verdict_scoring_amended_witness :
    Faithfulness_score ["yes", "no", "YES"]
      = some ((["yes", "no", "YES"].map fun v => (verdictScore v).getD 0).sum
          / ((["yes", "no", "YES"] : List String).length : ℚ)) :=
  (C2_verdict_scoring_amended ["yes", "no", "YES"]).1 (by decide) (by decide)

/-- C6: with at least one verdict returned, if all returned verdicts map to
Yes the score is 1, if all map to No the score is 0; with zero verdicts the
score is the undefined sentinel, not zero. -/
theorem C6_faithfulness_score_boundary (verdicts : List String)
    (hne : verdicts ≠ []) :
    ((∀ v ∈ verdicts, verdictScore v = some 1) →
      Faithfulness_score verdicts = some 1) ∧
    ((∀ v ∈ verdicts, verdictScore v = some 0) →
      Faithfulness_score verdicts = some 0) ∧
    Faithfulness_score [] = none := by
  have hlen : 0 < verdicts.length := List.length_pos.2 hne
  have hlenQ : ((verdicts.length : ℚ)) ≠ 0 :=
    Nat.cast_ne_zero.2 (Nat.pos_iff_ne_zero.1 hlen)
  refine ⟨?_, ?_, rfl⟩
  · intro hyes
    have hsome : ∀ v ∈ verdicts, (verdictScore v).isSome := fun v hv => by
      rw [hyes v hv]; rfl
    rw [Faithfulness_score_all_recognized verdicts hne hsome]
    have hmap : (verdicts.map fun v => (verdictScore v).getD 0)
        = List.replicate verdicts.length (1 : ℚ) := by
      refine List.eq_replicate_iff.2 ⟨by simp, ?_⟩
      intro b hb
      obtain ⟨v, hv, rfl⟩ := List.mem_map.1 hb
      rw [hyes v hv]; rfl
    rw [hmap, List.sum_replicate, nsmul_eq_mul, mul_one, div_self hlenQ]
  · intro hno
    have hsome : ∀ v ∈ verdicts, (verdictScore v).isSome := fun v hv => by
      rw [hno v hv]; rfl
    rw [Faithfulness_score_all_recognized verdicts hne hsome]
    have hsum : (verdicts.map fun v => (verdictScore v).getD 0).sum = 0 := by
      refine List.sum_eq_zero ?_
      intro x hx
      obtain ⟨v, hv, rfl⟩ := List.mem_map.1 hx
      rw [hno v hv]; rfl
    rw [hsum, zero_div]

/-- Witness for C6: an all-Yes list scores 1, an all-No list scores 0. -/
theorem C6_faithfulness_score_boundary_witness :
    Faithfulness_score ["Yes", "yes"] = some 1 ∧
    Faithfulness_score ["No", "no"] = some 0 :=
  ⟨(C6_faithfulness_score_boundary ["Yes", "yes"] (by decide)).1 (by decide),
   (C6_faithfulness_score_boundary ["No", "no"] (by decide)).2.1 (by decide)⟩

/-! ## ContextRecall._compute_score (src/ragas/metrics/_context_recall.py) -/

/-- Embeds the pydantic model ContextRecallClassificationAnswer. -/
structure ContextRecallClassificationAnswer where
  statement : String
  attributed : Bool
  reason : String
deriving DecidableEq

/-- Embeds ContextRecall._compute_score.  Its input models the outcome of
ContextRecallClassificationAnswers.parse_obj on the LLM response (pydantic
validation is external library code): some items is a successfully validated
list, none is a raised ValidationError, which the source catches, logs two
warnings for, and converts to nan.  The first returned component is the score
(none is the nan sentinel), the second records whether a warning was logged
on this path.  When the denominator is positive the score is a true quotient
and never nan, so no warning fires there, matching the np.isnan check of the
source. -/
def ContextRecall_compute_score
    (response : Option (List ContextRecallClassificationAnswer)) :
    Option ℚ × Bool :=
  match response with
  | none => (none, true)
  | some items =>
    let mapped := items.map fun item => if item.attributed then (1 : ℚ) else 0
    let denom := items.length
    let numerator := mapped.sum
    if 0 < denom then (some (numerator / (denom : ℚ)), false)
    else (none, true)

/-- Helper: summing the 1/0 indicator over the items counts the attributed
ones. -/
theorem sum_attributed_indicator (items : List ContextRecallClassificationAnswer) :
    (items.map fun item => if item.attributed then (1 : ℚ) else 0).sum
      = ((items.countP fun item => item.attributed) : ℚ) := by
  induction items with
  | nil => simp
  | cons a l ih =>
    by_cases h : a.attributed
    · simp only [List.map_cons, List.sum_cons, List.countP_cons, h, if_true, ih]
      push_cast
      ring
    · simp [List.countP_cons, h, ih]

/-- C7: for every validated classification list the score is the count of
attributed items over the total count; a zero total yields the undefined
sentinel; and a response failing schema validation yields a logged warning
and the undefined sentinel instead of an exception (the embedding is a total
function, so no exception escapes). -/
theorem C7_context_recall_score
    (response : Option (List ContextRecallClassificationAnswer)) :
    (response = none → ContextRecall_compute_score response = (none, true)) ∧
    (∀ items, response = some items → 0 < items.length →
      ContextRecall_compute_score response
        = (some (((items.countP fun item => item.attributed) : ℚ)
            / (items.length : ℚ)), false)) ∧
    (response = some [] → ContextRecall_compute_score response = (none, true)) := by
  refine ⟨?_, ?_, ?_⟩
  · rintro rfl; rfl
  · rintro items rfl hpos
    simp only [ContextRecall_compute_score, if_pos hpos, sum_attributed_indicator]
  · rintro rfl; rfl

/-- Witness for C7: four classified items of which three are attributed score
3/4, as in the worked example of the spec. -/
theorem C7_context_recall_score_witness :
    ContextRecall_compute_score (some
      [ContextRecallClassificationAnswer.mk "s1" true "r1",
       ContextRecallClassificationAnswer.mk "s2" true "r2",
       ContextRecallClassificationAnswer.mk "s3" true "r3",
       ContextRecallClassificationAnswer.mk "s4" false "r4"])
      = (some (3 / 4), false) := by
  have h := (C7_context_recall_score (some
      [ContextRecallClassificationAnswer.mk "s1" true "r1",
       ContextRecallClassificationAnswer.mk "s2" true "r2",
       ContextRecallClassificationAnswer.mk "s3" true "r3",
       ContextRecallClassificationAnswer.mk "s4" false "r4"])).2.1
      [ContextRecallClassificationAnswer.mk "s1" true "r1",
       ContextRecallClassificationAnswer.mk "s2" true "r2",
       ContextRecallClassificationAnswer.mk "s3" true "r3",
       ContextRecallClassificationAnswer.mk "s4" false "r4"] rfl (by decide)
  rw [h]
  norm_num [List.countP, List.countP.go]

/-! ## RagasEvaluatorChain.evaluate (src/ragas/langchain/evalchain.py)

The evaluate method first checks len(examples) == len(predictions) and raises
ValueError on mismatch, before its loop that validates and collects each row
and before metric.score runs.  The per-row validation consults the required
columns of the evaluation mode (ragas.validation, external to this code), and
the metric scoring drives the model; both therefore enter the embedding as
function parameters, and the row-count theorem quantifies over them. -/

/-- Embeds one langsmith example or prediction dict restricted to the keys
evaluate reads: query, result, source_documents (a document is reduced to its
page_content).  A missing key is none. -/
structure EvalRow where
  query : Option String
  result : Option String
  source_documents : Option (List String)
deriving DecidableEq

/-- Embeds the dict merge of example and prediction, prediction keys
winning, as the argument built for per-row validation. -/
def mergeRow (exampleRow prediction : EvalRow) : EvalRow :=
  { query := match prediction.query with
      | some v => some v
      | none => exampleRow.query
    , result := match prediction.result with
      | some v => some v
      | none => exampleRow.result
    , source_documents := match prediction.source_documents with
      | some v => some v
      | none => exampleRow.source_documents }

/-- Embeds a Python dict key access: a missing key raises KeyError. -/
def getKey (v : Option α) (keyName : String) : Except String α :=
  match v with
  | some x => Except.ok x
  | none => Except.error keyName

/-- Embeds RagasEvaluatorChain.evaluate: the row-count check first, then
per-row validation and collection of question from the example, answer from
the prediction, and contexts from the prediction when the evaluation mode of
the metric needs them, then scoring of the collected dataset. -/
def RagasEvaluatorChain_evaluate
    (validateRow : EvalRow → Except String Unit)
    (needsContexts : Bool)
    (scoreFn : List (String × String × List String) → List ℚ)
    (examples predictions : List EvalRow) : Except String (List ℚ) :=
  if examples.length ≠ predictions.length then
    Except.error "number of examples and predictions must be same"
  else do
    let rows ← (examples.zip predictions).mapM fun ep => do
      validateRow (mergeRow ep.1 ep.2)
      let q ← getKey ep.1.query "query"
      let a ← getKey ep.2.result "result"
      let c ← if needsContexts then getKey ep.2.source_documents "source_documents"
        else pure []
      pure (q, a, c)
    pure (scoreFn rows)

/-- C9: whenever the example and prediction sequences have different lengths,
evaluate fails with the row-count ValueError, for EVERY per-row validator,
every evaluation mode, and every scoring function: the outcome does not
depend on the scorer, so the error fires before any model call. -/
theorem C9_row_count_validation (examples predictions : List EvalRow)
    (h : examples.length ≠ predictions.length) :
    ∀ validateRow needsContexts scoreFn,
      RagasEvaluatorChain_evaluate validateRow needsContexts scoreFn
          examples predictions
        = Except.error "number of examples and predictions must be same" := by
  intro validateRow needsContexts scoreFn
  simp [RagasEvaluatorChain_evaluate, h]

/-- Witness for C9 with 5 examples and 4 predictions, as in the spec. -/
theorem C9_row_count_validation_witness :
    RagasEvaluatorChain_evaluate (fun _ => Except.ok ()) true (fun _ => [])
      (List.replicate 5 (EvalRow.mk none none none))
      (List.replicate 4 (EvalRow.mk none none none))
      = Except.error "number of examples and predictions must be same" :=
  C9_row_count_validation
    (List.replicate 5 (EvalRow.mk none none none))
    (List.replicate 4 (EvalRow.mk none none none))
    (by decide) (fun _ => Except.ok ()) true (fun _ => [])
